import Mathlib

/-!
# Pandora Weather Scanner — verification development

Shallow embedding of `pandoraproject.py` (a Flask weather-proxy service) and
proofs about its weather cache, remote-client error handling, and the
`/get_weather/<location_key>` request pipeline.

Conventions of the embedding:
* JSON values are an inductive `Json` type with rational numbers.
* Python `dict.get`, indexing and `round` are modelled as `Except PyErr _`
  computations so exceptions such as `AttributeError` are visible.
* Wall-clock time and the outcome of the external HTTP request are explicit
  parameters (`now : ℚ`, `ApiOutcome`): the global `WEATHER_CACHE` becomes an
  explicit association list threaded through the handler.
* The third component of the handler's result records whether the remote
  weather client was invoked during the request.
-/

namespace Pandora

/-- JSON values, as produced by `response.json()`. Numbers are rationals. -/
inductive Json where
  | null : Json
  | bool : Bool → Json
  | num : ℚ → Json
  | str : String → Json
  | arr : List Json → Json
  | obj : List (String × Json) → Json

/-- Python truthiness of a JSON value (`if x:`). -/
def Json.truthy : Json → Bool
  | .null => false
  | .bool b => b
  | .num q => decide (q ≠ 0)
  | .str s => !s.isEmpty
  | .arr xs => !xs.isEmpty
  | .obj fs => !fs.isEmpty

/-- Python exceptions that the embedded code can raise. -/
inductive PyErr where
  | attributeError : PyErr
  | typeError : PyErr
  | indexError : PyErr
  | keyError : PyErr
deriving DecidableEq, Repr

/-- Lookup of a field in a JSON-object field list (first match wins). -/
def objFind (fs : List (String × Json)) (k : String) : Option Json :=
  (fs.find? (fun kv => kv.1 == k)).map (fun kv => kv.2)

/-- Total `dict.get` on a field list with a default. -/
def objGetD (fs : List (String × Json)) (k : String) (dflt : Json) : Json :=
  match objFind fs k with
  | some v => v
  | none => dflt

/-- Python `x.get(k, dflt)`: succeeds on a dict, raises `AttributeError`
on any other value (as in `api_data.get('current_weather', {})`). -/
def pyGet (j : Json) (k : String) (dflt : Json) : Except PyErr Json :=
  match j with
  | .obj fs => .ok (objGetD fs k dflt)
  | _ => .error .attributeError

/-- Python `x[0]`: first element of a list, first character of a string;
`IndexError` when empty, `KeyError` on a dict, `TypeError` otherwise. -/
def pyIndex0 : Json → Except PyErr Json
  | .arr (x :: _) => .ok x
  | .arr [] => .error .indexError
  | .str s => if s.isEmpty then .error .indexError else .ok (.str (String.singleton s.front))
  | .obj _ => .error .keyError
  | _ => .error .typeError

/-- Round-half-to-even on rationals, as Python `round` ties. -/
def roundHalfEven (q : ℚ) : ℤ :=
  let f : ℤ := ⌊q⌋
  if q - f < 1/2 then f
  else if q - f > 1/2 then f + 1
  else if f % 2 = 0 then f else f + 1

/-- Python `round(x, 2)` on a JSON value: defined on numbers (and bools,
which are ints in Python), `TypeError` otherwise. -/
def pyRound2 : Json → Except PyErr Json
  | .num q => .ok (.num ((roundHalfEven (q * 100) : ℚ) / 100))
  | .bool b => .ok (.num (if b then 1 else 0))
  | _ => .error .typeError

/-- A location record of the static `LOCATIONS` registry. -/
structure Location where
  name : String
  lat : ℚ
  lon : ℚ
  image : String
  status : String
  status_color : String
deriving DecidableEq, Repr

/-- The static `LOCATIONS` registry, verbatim from the source. -/
def LOCATIONS : List (String × Location) :=
  [("hallelujah_mountains",
    { name := "Hallelujah Mountains"
      lat := 29.13
      lon := 110.48
      image := "https://miro.medium.com/v2/resize:fit:1400/format:webp/1*PPxE0RqyWyLXb8wAliU15g.jpeg"
      status := "Stable"
      status_color := "green" }),
   ("eastern_sea",
    { name := "Eastern Sea"
      lat := 3.20
      lon := 73.22
      image := "static/eastern_sea.png"
      status := "RDA Activity Detected"
      status_color := "red" })]

/-- `location_key in LOCATIONS` / `LOCATIONS[location_key]`. -/
def lookupLocation (k : String) : Option Location :=
  ((LOCATIONS.find? (fun kv => kv.1 == k))).map (fun kv => kv.2)

/-- `CACHE_DURATION = 10` seconds. -/
def CACHE_DURATION : ℚ := 10

/-- The `WEATHER_CACHE` dictionary: location key ↦ (payload, timestamp). -/
abbrev Cache := List (String × (Json × ℚ))

/-- `location_key in WEATHER_CACHE` / `WEATHER_CACHE[location_key]`. -/
def cacheLookup (c : Cache) (k : String) : Option (Json × ℚ) :=
  (c.find? (fun kv => kv.1 == k)).map (fun kv => kv.2)

/-- `del WEATHER_CACHE[location_key]`. -/
def cacheErase (c : Cache) (k : String) : Cache :=
  c.filter (fun kv => !(kv.1 == k))

/-- `WEATHER_CACHE[location_key] = v` (overwrites any prior entry). -/
def cacheInsert (c : Cache) (k : String) (v : Json × ℚ) : Cache :=
  (k, v) :: cacheErase c k

/-- Structured log messages; one constructor per logging site, so distinct
failure causes produce distinguishable log entries. -/
inductive LogMsg where
  | fetchSuccess : ℚ → ℚ → LogMsg
  | apiTimedOut : ℚ → ℚ → LogMsg
  | apiRequestFailed : String → LogMsg
  | jsonParseFailed : String → LogMsg
  | returningCached : String → LogMsg
  | cacheExpired : String → LogMsg
  | cachedWeather : String → LogMsg
  | invalidLocation : String → LogMsg
  | processingRequest : String → LogMsg
deriving DecidableEq, Repr

/-- The observable outcome of `requests.get` + `raise_for_status` +
`response.json()` inside the remote client's `try` block. -/
inductive ApiOutcome where
  | timeout : ApiOutcome
  | transportError : String → ApiOutcome
  | httpError : Nat → ApiOutcome
  | invalidJson : String → ApiOutcome
  | success : Json → ApiOutcome

/-- Exceptions the `try` body of `get_weather_from_api` can raise:
`requests.exceptions.Timeout`, `requests.exceptions.RequestException`
(including `HTTPError` from `raise_for_status`), and `ValueError` from
JSON parsing. -/
inductive ReqExn where
  | timeoutExn : ReqExn
  | requestException : String → ReqExn
  | valueError : String → ReqExn
deriving DecidableEq, Repr

/-- The failure cause of a request exception, forgetting its message. -/
def ReqExn.cause : ReqExn → Nat
  | .timeoutExn => 0
  | .requestException _ => 1
  | .valueError _ => 2

/-- The `try` body of `get_weather_from_api`: returns the parsed payload or
raises one of the three request exceptions. -/
def tryFetch : ApiOutcome → Except ReqExn Json
  | .timeout => .error .timeoutExn
  | .transportError e => .error (.requestException e)
  | .httpError code => .error (.requestException ("HTTP error " ++ toString code))
  | .invalidJson e => .error (.valueError e)
  | .success payload => .ok payload

/-- The log entry written by the matching `except` clause. -/
def exceptLog (lat lon : ℚ) : ReqExn → LogMsg
  | .timeoutExn => .apiTimedOut lat lon
  | .requestException e => .apiRequestFailed e
  | .valueError e => .jsonParseFailed e

/-- `get_weather_from_api(lat, lon)`: every exception of the `try` body is
caught by an `except` clause that logs and returns `None`; a successful
fetch logs and returns the parsed payload. -/
def get_weather_from_api (lat lon : ℚ) (o : ApiOutcome) : Option Json × List LogMsg :=
  match tryFetch o with
  | .ok data => (some data, [.fetchSuccess lat lon])
  | .error e => (none, [exceptLog lat lon e])

/-- `get_cached_weather(location_key)`: reads the cache at the given wall
clock, returning the payload on a fresh hit and evicting a stale entry.
Returns the result together with the cache after the call. -/
def get_cached_weather (cache : Cache) (now : ℚ) (k : String) :
    Option Json × Cache :=
  match cacheLookup cache k with
  | some (data, timestamp) =>
      if now - timestamp < CACHE_DURATION then (some data, cache)
      else (none, cacheErase cache k)
  | none => (none, cache)

/-- `set_cached_weather(location_key, data)`: stores the payload with the
current timestamp. -/
def set_cached_weather (cache : Cache) (now : ℚ) (k : String) (data : Json) : Cache :=
  cacheInsert cache k (data, now)

/-- An HTTP response of the weather endpoint: status code and JSON body. -/
structure HttpResponse where
  status : Nat
  body : Json

/-- The 404 body for an unknown location key. -/
def notFoundBody (k : String) : Json :=
  .obj [("error", .str "Invalid location"),
        ("message", .str ("Location \x27" ++ k ++ "\x27 not found"))]

/-- The 500 body when the remote client returned `None`. -/
def unavailableBody (name : String) : Json :=
  .obj [("error", .str "Weather service unavailable"),
        ("message", .str "Failed to fetch weather data. Please try again later."),
        ("location", .str name)]

/-- `hourly_data.get(key, [None])[0] if hourly_data.get(key) else None`:
the guarded first-sample extraction for humidity and pressure. -/
def firstSample (hourly_data : Json) (key : String) : Except PyErr Json := do
  let guard ← pyGet hourly_data key .null
  if guard.truthy then
    let a ← pyGet hourly_data key (.arr [.null])
    pyIndex0 a
  else
    pure .null

/-- The transform step of `get_weather` (source lines 610–691): extracts the
current-weather fields and the first hourly humidity and pressure samples
from `api_data` and builds `response_data`. Raises (as the Python does)
when `api_data` or a nested value is not of the expected shape. -/
def transform (target : Location) (api_data : Json) : Except PyErr Json := do
  let current_weather ← pyGet api_data "current_weather" (.obj [])
  let hourly_data ← pyGet api_data "hourly" (.obj [])
  let humidity ← firstSample hourly_data "relativehumidity_2m"
  let pressure ← firstSample hourly_data "pressure_msl"
  let temp ← pyGet current_weather "temperature" .null
  let wind ← pyGet current_weather "windspeed" .null
  let wind_direction ← pyGet current_weather "winddirection" .null
  let weather_code ← pyGet current_weather "weathercode" .null
  let pressureOut ← if pressure.truthy then pyRound2 pressure else pure Json.null
  pure (.obj
    [("location", .str target.name),
     ("temp", temp),
     ("wind", wind),
     ("wind_direction", wind_direction),
     ("weather_code", weather_code),
     ("humidity", humidity),
     ("pressure", pressureOut),
     ("image", .str target.image),
     ("status", .str target.status),
     ("status_color", .str target.status_color)])

/-- The cache-miss tail of `get_weather`: remote fetch, transform, cache
write, respond. The `Bool` component records that the remote client was
invoked; the `Cache` component is the cache after the call (also when an
exception escapes). -/
def fetchPath (target : Location) (cache1 : Cache) (now : ℚ) (o : ApiOutcome)
    (k : String) : Except PyErr HttpResponse × Cache × Bool :=
  match (get_weather_from_api target.lat target.lon o).1 with
  | none => (.ok { status := 500, body := unavailableBody target.name }, cache1, true)
  | some api_data =>
      match transform target api_data with
      | .error e => (.error e, cache1, true)
      | .ok response_data =>
          (.ok { status := 200, body := response_data },
           set_cached_weather cache1 now k response_data, true)

/-- `get_weather(location_key)` (route `/get_weather/<location_key>`):
validate the key, check the cache, and on a miss fetch, transform, cache
and respond. Result: the HTTP response (or the escaped Python exception),
the cache afterwards, and whether the remote client was invoked. -/
def get_weather (cache : Cache) (now : ℚ) (o : ApiOutcome) (k : String) :
    Except PyErr HttpResponse × Cache × Bool :=
  match lookupLocation k with
  | none => (.ok { status := 404, body := notFoundBody k }, cache, false)
  | some target =>
      match get_cached_weather cache now k with
      | (some cached_data, cache1) =>
          if cached_data.truthy then
            (.ok { status := 200, body := cached_data }, cache1, false)
          else
            fetchPath target cache1 now o k
      | (none, cache1) => fetchPath target cache1 now o k

/-- A character record: display name, image reference, free-text description
and a stats record rendered as display strings (spec §3). -/
structure Character where
  name : String
  image : String
  description : String
  strength : String
  speed : String
  intelligence : String
  combat : String
deriving DecidableEq, Repr

/-- Modelled from the spec: capitalisation of one word of a character key
(the character registry and placeholder synthesis live in the character
detail template, which is not among the source files). -/
def capitalizeWord (w : String) : String :=
  match w.data with
  | [] => ""
  | c :: cs => String.mk (c.toUpper :: cs)

/-- Splitting a character list at underscores (structural recursion, so the
function reduces definitionally). -/
def splitUnderscore : List Char → List (List Char)
  | [] => [[]]
  | c :: rest =>
    if c = '_' then [] :: splitUnderscore rest
    else
      match splitUnderscore rest with
      | [] => [[c]]
      | w :: ws => (c :: w) :: ws

/-- Modelled from the spec: the title-cased display name of a character key
(underscore-separated words, each capitalised). -/
def titleCase (key : String) : String :=
  String.intercalate " "
    ((splitUnderscore key.data).map (fun w => capitalizeWord (String.mk w)))

/-- Modelled from the spec: the image filename inferred from a character
key. -/
def inferredImage (key : String) : String :=
  "static/" ++ key ++ ".png"

/-- Modelled from the spec: the placeholder record synthesized for a key
absent from the static character registry (title-cased name, inferred
image filename, placeholder description and stats). -/
def placeholderCharacter (key : String) : Character :=
  { name := titleCase key
    image := inferredImage key
    description := "No information is available for this character yet."
    strength := "Unknown"
    speed := "Unknown"
    intelligence := "Unknown"
    combat := "Unknown" }

/-- Modelled from the spec: the character handler (spec §4.4) looks the key
up in the static registry and, when it is absent, serves the synthesized
placeholder record rather than failing. The registry contents are not in
the source files, so the registry is a parameter. -/
def character_page (registry : List (String × Character)) (key : String) : Character :=
  match (registry.find? (fun kv => kv.1 == key)).map (fun kv => kv.2) with
  | some c => c
  | none => placeholderCharacter key

/-! ## Helper lemmas -/

theorem get_cached_weather_fresh (cache : Cache) (now ts : ℚ) (k : String) (d : Json)
    (h1 : cacheLookup cache k = some (d, ts)) (h2 : now - ts < CACHE_DURATION) :
    get_cached_weather cache now k = (some d, cache) := by
  simp [get_cached_weather, h1, h2]

theorem get_cached_weather_stale (cache : Cache) (now ts : ℚ) (k : String) (d : Json)
    (h1 : cacheLookup cache k = some (d, ts)) (h2 : ¬ now - ts < CACHE_DURATION) :
    get_cached_weather cache now k = (none, cacheErase cache k) := by
  simp [get_cached_weather, h1, h2]

theorem get_cached_weather_absent (cache : Cache) (now : ℚ) (k : String)
    (h : cacheLookup cache k = none) :
    get_cached_weather cache now k = (none, cache) := by
  simp [get_cached_weather, h]

theorem cacheLookup_erase (c : Cache) (k : String) :
    cacheLookup (cacheErase c k) k = none := by
  simp only [cacheLookup, cacheErase, Option.map_eq_none', List.find?_eq_none,
    List.mem_filter]
  intro kv hkv
  simpa using hkv.2

theorem get_weather_of_unknown (cache : Cache) (now : ℚ) (o : ApiOutcome) (k : String)
    (h : lookupLocation k = none) :
    get_weather cache now o k =
      (.ok { status := 404, body := notFoundBody k }, cache, false) := by
  simp [get_weather, h]

theorem get_weather_of_fresh_hit (cache : Cache) (now : ℚ) (o : ApiOutcome) (k : String)
    (target : Location) (d : Json)
    (hk : lookupLocation k = some target)
    (hc : get_cached_weather cache now k = (some d, cache))
    (ht : d.truthy = true) :
    get_weather cache now o k = (.ok { status := 200, body := d }, cache, false) := by
  simp [get_weather, hk, hc, ht]

theorem get_weather_of_miss (cache cache1 : Cache) (now : ℚ) (o : ApiOutcome) (k : String)
    (target : Location)
    (hk : lookupLocation k = some target)
    (hc : get_cached_weather cache now k = (none, cache1)) :
    get_weather cache now o k = fetchPath target cache1 now o k := by
  simp [get_weather, hk, hc]

theorem fetchPath_of_absent (target : Location) (cache1 : Cache) (now : ℚ)
    (o : ApiOutcome) (k : String)
    (h : (get_weather_from_api target.lat target.lon o).1 = none) :
    fetchPath target cache1 now o k =
      (.ok { status := 500, body := unavailableBody target.name }, cache1, true) := by
  simp [fetchPath, h]

theorem fetchPath_remote_called (target : Location) (cache1 : Cache) (now : ℚ)
    (o : ApiOutcome) (k : String) :
    (fetchPath target cache1 now o k).2.2 = true := by
  unfold fetchPath
  split
  · rfl
  · split <;> rfl

theorem get_cached_weather_miss_state (cache cache1 : Cache) (now : ℚ) (k : String)
    (h : get_cached_weather cache now k = (none, cache1)) :
    cacheLookup cache1 k = none ∧ (cache1 = cache ∨ cache1 = cacheErase cache k) := by
  unfold get_cached_weather at h
  split at h
  · split at h
    · exact absurd (congrArg Prod.fst h) (by simp)
    · have h2 := congrArg Prod.snd h
      subst h2
      exact ⟨cacheLookup_erase cache k, Or.inr rfl⟩
  · have h2 := congrArg Prod.snd h
    subst h2
    exact ⟨(by assumption), Or.inl rfl⟩

theorem except_bind_ok {ε α β : Type} (a : α) (f : α → Except ε β) :
    (Except.ok a >>= f : Except ε β) = f a := rfl

theorem except_bind_err {ε α β : Type} (e : ε) (f : α → Except ε β) :
    (Except.error e >>= f : Except ε β) = Except.error e := rfl

/-! ## Claim theorems -/

/-- C1: a character key absent from the static registry is served the
synthesized placeholder record (title-cased display name, inferred image
filename, placeholder description and stats) rather than failing. -/
theorem unknown_character_served_placeholder (registry : List (String × Character))
    (key : String)
    (habsent : registry.find? (fun kv => kv.1 == key) = none) :
    character_page registry key = placeholderCharacter key ∧
    (character_page registry key).name = titleCase key ∧
    (character_page registry key).image = inferredImage key := by
  have h : character_page registry key = placeholderCharacter key := by
    simp [character_page, habsent]
  exact ⟨h, by rw [h]; rfl, by rw [h]; rfl⟩

/-- Witness for C1: the empty registry and the key "jake". -/
theorem unknown_character_served_placeholder_witness :
    character_page [] "jake" = placeholderCharacter "jake" ∧
    (character_page [] "jake").name = "Jake" := by
  have h := unknown_character_served_placeholder [] "jake" rfl
  refine ⟨h.1, h.2.1.trans ?_⟩
  rfl

/-- C2: for a known location key, a cache hit younger than the TTL makes the
weather endpoint respond HTTP 200 with exactly the previously stored
payload, without invoking the remote weather client and without changing
the cache. (Every payload the pipeline stores is a non-empty JSON object,
hence truthy.) -/
theorem cache_hit_serves_stored_payload (cache : Cache) (now ts : ℚ) (o : ApiOutcome)
    (k : String) (target : Location) (payload : Json)
    (hk : lookupLocation k = some target)
    (hc : cacheLookup cache k = some (payload, ts))
    (hfresh : now - ts < CACHE_DURATION)
    (htr : payload.truthy = true) :
    get_weather cache now o k = (.ok { status := 200, body := payload }, cache, false) :=
  get_weather_of_fresh_hit cache now o k target payload hk
    (get_cached_weather_fresh cache now ts k payload hc hfresh) htr

/-- Witness for C2 at a concrete cache state and request. -/
theorem cache_hit_serves_stored_payload_witness :
    get_weather [("eastern_sea", (.obj [("temp", .num 21)], 0))] 5 .timeout "eastern_sea"
      = (.ok { status := 200, body := .obj [("temp", .num 21)] },
         [("eastern_sea", (.obj [("temp", .num 21)], 0))], false) :=
  cache_hit_serves_stored_payload [("eastern_sea", (.obj [("temp", .num 21)], 0))] 5 0
    .timeout "eastern_sea" _ _ rfl rfl (by norm_num [CACHE_DURATION]) rfl

/-- C3: a weather-cache read returns the stored payload while the entry is
younger than the TTL; otherwise it evicts the stale entry and returns
absent, in which case the endpoint invokes the remote weather client for
that (known) key. -/
theorem cache_read_ttl_and_stale_refetch (cache : Cache) (now ts : ℚ) (o : ApiOutcome)
    (k : String) (d : Json)
    (hc : cacheLookup cache k = some (d, ts)) :
    (now - ts < CACHE_DURATION → get_cached_weather cache now k = (some d, cache)) ∧
    (¬ now - ts < CACHE_DURATION →
      get_cached_weather cache now k = (none, cacheErase cache k) ∧
      ∀ target, lookupLocation k = some target → (get_weather cache now o k).2.2 = true) :=
  ⟨fun hfresh => get_cached_weather_fresh cache now ts k d hc hfresh,
   fun hstale =>
     ⟨get_cached_weather_stale cache now ts k d hc hstale,
      fun target hk => by
        rw [get_weather_of_miss cache (cacheErase cache k) now o k target hk
          (get_cached_weather_stale cache now ts k d hc hstale)]
        exact fetchPath_remote_called target (cacheErase cache k) now o k⟩⟩

/-- Witness for C3: a stale entry is evicted and the remote client invoked. -/
theorem cache_read_ttl_and_stale_refetch_witness :
    get_cached_weather [("eastern_sea", (.num 1, 0))] 20 "eastern_sea" = (none, []) ∧
    (get_weather [("eastern_sea", (.num 1, 0))] 20 .timeout "eastern_sea").2.2 = true := by
  have h := cache_read_ttl_and_stale_refetch [("eastern_sea", (.num 1, 0))] 20 0 .timeout
    "eastern_sea" (.num 1) rfl
  have h2 := h.2 (by norm_num [CACHE_DURATION])
  exact ⟨h2.1, h2.2 _ rfl⟩

/-- C5: the remote weather client never raises to its caller: every
exception of the try body (timeout, transport or HTTP error, invalid
JSON) yields the absent result together with a log entry whose
constructor is distinct per failure cause, and a successful fetch yields
the parsed payload. -/
theorem remote_client_never_raises (lat lon : ℚ) (o : ApiOutcome) :
    (∀ p, tryFetch o = .ok p →
      get_weather_from_api lat lon o = (some p, [LogMsg.fetchSuccess lat lon])) ∧
    (∀ e, tryFetch o = .error e →
      get_weather_from_api lat lon o = (none, [exceptLog lat lon e])) ∧
    (∀ e eOther : ReqExn, ReqExn.cause e ≠ ReqExn.cause eOther →
      exceptLog lat lon e ≠ exceptLog lat lon eOther) := by
  refine ⟨fun p hp => ?_, fun e he => ?_, fun e eOther hne => ?_⟩
  · simp [get_weather_from_api, hp]
  · simp [get_weather_from_api, he]
  · cases e <;> cases eOther <;>
      first
        | exact absurd rfl hne
        | exact fun h => LogMsg.noConfusion h

/-- Witness for C5: an invalid-JSON response and a successful fetch, plus
distinctness of two failure-cause log entries. -/
theorem remote_client_never_raises_witness :
    get_weather_from_api 1 2 (.invalidJson "bad token")
      = (none, [LogMsg.jsonParseFailed "bad token"]) ∧
    get_weather_from_api 1 2 (.success .null) = (some .null, [LogMsg.fetchSuccess 1 2]) ∧
    exceptLog 1 2 .timeoutExn ≠ exceptLog 1 2 (.valueError "bad token") := by
  have h := remote_client_never_raises 1 2 (.invalidJson "bad token")
  have h2 := remote_client_never_raises 1 2 (.success .null)
  exact ⟨h.2.1 (.valueError "bad token") rfl, h2.1 .null rfl, h.2.2 _ _ (by decide)⟩

/-- C6: on a cache miss for a known key, an absent remote result makes the
endpoint respond HTTP 500 with body fields error, message and location,
the location field holding the location's display name. -/
theorem upstream_failure_yields_500 (cache cache1 : Cache) (now : ℚ) (o : ApiOutcome)
    (k : String) (target : Location)
    (hk : lookupLocation k = some target)
    (hmiss : get_cached_weather cache now k = (none, cache1))
    (habsent : (get_weather_from_api target.lat target.lon o).1 = none) :
    get_weather cache now o k =
      (.ok { status := 500,
             body := .obj
               [("error", .str "Weather service unavailable"),
                ("message", .str "Failed to fetch weather data. Please try again later."),
                ("location", .str target.name)] },
       cache1, true) := by
  rw [get_weather_of_miss cache cache1 now o k target hk hmiss,
      fetchPath_of_absent target cache1 now o k habsent]
  rfl

/-- Witness for C6: a timed-out remote call for "eastern_sea" on an empty
cache. -/
theorem upstream_failure_yields_500_witness :
    get_weather [] 0 .timeout "eastern_sea"
      = (.ok { status := 500,
               body := .obj
                 [("error", .str "Weather service unavailable"),
                  ("message", .str "Failed to fetch weather data. Please try again later."),
                  ("location", .str "Eastern Sea")] },
         [], true) :=
  upstream_failure_yields_500 [] [] 0 .timeout "eastern_sea" _ rfl rfl rfl

/-- C7: a location key absent from the static registry makes the weather
endpoint respond HTTP 404 with an error payload of fields error and
message, leaving the cache unchanged. -/
theorem unknown_location_yields_404 (cache : Cache) (now : ℚ) (o : ApiOutcome) (k : String)
    (hk : lookupLocation k = none) :
    get_weather cache now o k =
      (.ok { status := 404,
             body := .obj
               [("error", .str "Invalid location"),
                ("message", .str ("Location \x27" ++ k ++ "\x27 not found"))] },
       cache, false) :=
  get_weather_of_unknown cache now o k hk

/-- Witness for C7: the unknown key "pandora_core". -/
theorem unknown_location_yields_404_witness :
    get_weather [] 0 .timeout "pandora_core"
      = (.ok { status := 404,
               body := .obj
                 [("error", .str "Invalid location"),
                  ("message", .str "Location \x27pandora_core\x27 not found")] },
       [], false) :=
  unknown_location_yields_404 [] 0 .timeout "pandora_core" rfl

/-- C9: error responses never write a cache entry: a 404 leaves the cache
unchanged and does not invoke the remote client, and after a 500 for key
k the key is absent from the cache, the cache having at most lost a
stale entry for k on the way. -/
theorem error_responses_never_write_cache (cache : Cache) (now : ℚ) (o : ApiOutcome)
    (k : String) :
    (lookupLocation k = none →
      get_weather cache now o k
        = (.ok { status := 404, body := notFoundBody k }, cache, false)) ∧
    (∀ target cache1, lookupLocation k = some target →
      get_cached_weather cache now k = (none, cache1) →
      (get_weather_from_api target.lat target.lon o).1 = none →
      (get_weather cache now o k).1
          = .ok { status := 500, body := unavailableBody target.name } ∧
      cacheLookup (get_weather cache now o k).2.1 k = none ∧
      ((get_weather cache now o k).2.1 = cache ∨
       (get_weather cache now o k).2.1 = cacheErase cache k)) := by
  constructor
  · exact fun hk => get_weather_of_unknown cache now o k hk
  · intro target cache1 hk hmiss habsent
    have hgw : get_weather cache now o k
        = (.ok { status := 500, body := unavailableBody target.name }, cache1, true) := by
      rw [get_weather_of_miss cache cache1 now o k target hk hmiss,
          fetchPath_of_absent target cache1 now o k habsent]
    have hstate := get_cached_weather_miss_state cache cache1 now k hmiss
    rw [hgw]
    exact ⟨rfl, hstate.1, hstate.2⟩

/-- Witness for C9: a 404 for an unknown key leaves the cache untouched, and
after a 500 the requested key is absent from the cache. -/
theorem error_responses_never_write_cache_witness :
    get_weather [("eastern_sea", (.num 1, 0))] 20 .timeout "pandora_core"
      = (.ok { status := 404, body := notFoundBody "pandora_core" },
         [("eastern_sea", (.num 1, 0))], false) ∧
    cacheLookup
      (get_weather [("eastern_sea", (.num 1, 0))] 20 .timeout "eastern_sea").2.1
      "eastern_sea" = none := by
  constructor
  · exact (error_responses_never_write_cache [("eastern_sea", (.num 1, 0))] 20 .timeout
      "pandora_core").1 rfl
  · have hmiss : get_cached_weather [("eastern_sea", (Json.num 1, 0))] 20 "eastern_sea"
        = (none, []) := by
      rw [get_cached_weather_stale [("eastern_sea", (Json.num 1, 0))] 20 0 "eastern_sea"
        (.num 1) rfl (by norm_num [CACHE_DURATION])]
      rfl
    exact ((error_responses_never_write_cache [("eastern_sea", (.num 1, 0))] 20 .timeout
      "eastern_sea").2 _ [] rfl hmiss rfl).2.1

/-- C10: a fresh cache hit leaves the weather cache entirely unchanged (in
particular the stored timestamp is not refreshed), so a later read past
the original write's TTL misses regardless of intervening reads. -/
theorem cache_hit_is_read_only (cache : Cache) (now ts : ℚ) (k : String) (d : Json)
    (hc : cacheLookup cache k = some (d, ts))
    (hfresh : now - ts < CACHE_DURATION) :
    get_cached_weather cache now k = (some d, cache) ∧
    ∀ later, ¬ later - ts < CACHE_DURATION →
      (get_cached_weather cache later k).1 = none :=
  ⟨get_cached_weather_fresh cache now ts k d hc hfresh,
   fun later hl => by rw [get_cached_weather_stale cache later ts k d hc hl]⟩

/-- Witness for C10: a read at time 5 of an entry written at time 0 hits and
changes nothing; a read at time 20 misses. -/
theorem cache_hit_is_read_only_witness :
    get_cached_weather [("eastern_sea", (.num 1, 0))] 5 "eastern_sea"
      = (some (.num 1), [("eastern_sea", (.num 1, 0))]) ∧
    (get_cached_weather [("eastern_sea", (.num 1, 0))] 20 "eastern_sea").1 = none := by
  have h := cache_hit_is_read_only [("eastern_sea", (.num 1, 0))] 5 0 "eastern_sea"
    (.num 1) rfl (by norm_num [CACHE_DURATION])
  exact ⟨h.1, h.2 20 (by norm_num [CACHE_DURATION])⟩

/-- C8: at this failing input the handler lets an AttributeError escape the
handler boundary: a cache miss for the known key "eastern_sea" with the
remote client returning the non-dict JSON payload [1, 2, 3] makes
api_data.get(...) raise, so the handler returns neither the success
payload nor one of the specified error responses, contradicting its
documented error handling. -/
theorem nondict_payload_raises_attribute_error :
    get_weather [] 0 (.success (.arr [.num 1, .num 2, .num 3])) "eastern_sea"
      = (.error .attributeError, [], true) := rfl

/-- C4 counterexample: with hourly pressure series [0] the endpoint serves a
null pressure although a first sample (0) is present, so the served value
differs from the claim's rounded first sample (the number 0). -/
theorem pressure_zero_sample_served_null :
    (get_weather [] 0
        (.success (.obj
          [("current_weather", .obj [("temperature", .num 20)]),
           ("hourly", .obj [("relativehumidity_2m", .arr [.num 50]),
                            ("pressure_msl", .arr [.num 0])])]))
        "eastern_sea").1
      = .ok { status := 200,
              body := .obj
                [("location", .str "Eastern Sea"),
                 ("temp", .num 20),
                 ("wind", Json.null),
                 ("wind_direction", Json.null),
                 ("weather_code", Json.null),
                 ("humidity", .num 50),
                 ("pressure", Json.null),
                 ("image", .str "static/eastern_sea.png"),
                 ("status", .str "RDA Activity Detected"),
                 ("status_color", .str "red")] } ∧
    Json.null ≠ .num ((roundHalfEven (0 * 100) : ℚ) / 100) :=
  ⟨rfl, fun h => Json.noConfusion h⟩

theorem objGetD_of_arr (fs : List (String × Json)) (k : String) (hs : List Json) (d : Json)
    (h : objGetD fs k .null = .arr hs) : objGetD fs k d = .arr hs := by
  unfold objGetD at h ⊢
  cases hfind : objFind fs k
  · rw [hfind] at h
    exact absurd h (fun hh => Json.noConfusion hh)
  · rw [hfind] at h
    exact h

theorem firstSample_of_null (hf : List (String × Json)) (key : String)
    (h : objGetD hf key .null = .null) :
    firstSample (.obj hf) key = .ok .null := by
  simp [firstSample, pyGet, h, except_bind_ok, Json.truthy]
  rfl

theorem firstSample_of_empty (hf : List (String × Json)) (key : String)
    (h : objGetD hf key .null = .arr []) :
    firstSample (.obj hf) key = .ok .null := by
  simp [firstSample, pyGet, h, except_bind_ok, Json.truthy]
  rfl

theorem firstSample_of_cons (hf : List (String × Json)) (key : String) (x : Json)
    (tl : List Json)
    (h : objGetD hf key .null = .arr (x :: tl)) :
    firstSample (.obj hf) key = .ok x := by
  have h2 := objGetD_of_arr hf key (x :: tl) (.arr [.null]) h
  simp [firstSample, pyGet, h, h2, except_bind_ok, Json.truthy, pyIndex0]

theorem transform_fields (target : Location) (af cwf hf : List (String × Json))
    (hum press pressOut : Json)
    (hcw : objGetD af "current_weather" (.obj []) = .obj cwf)
    (hhd : objGetD af "hourly" (.obj []) = .obj hf)
    (hhum : firstSample (.obj hf) "relativehumidity_2m" = .ok hum)
    (hpress : firstSample (.obj hf) "pressure_msl" = .ok press)
    (hpo : (if press.truthy then pyRound2 press else pure Json.null) = .ok pressOut) :
    transform target (.obj af) = .ok (.obj
      [("location", .str target.name),
       ("temp", objGetD cwf "temperature" .null),
       ("wind", objGetD cwf "windspeed" .null),
       ("wind_direction", objGetD cwf "winddirection" .null),
       ("weather_code", objGetD cwf "weathercode" .null),
       ("humidity", hum),
       ("pressure", pressOut),
       ("image", .str target.image),
       ("status", .str target.status),
       ("status_color", .str target.status_color)]) := by
  simp only [transform, pyGet, hcw, hhd, hhum, hpress, except_bind_ok]
  by_cases hptr : press.truthy = true
  · rw [if_pos hptr] at hpo ⊢
    rw [hpo]
    rfl
  · rw [if_neg hptr] at hpo ⊢
    have h2 : Json.null = pressOut := by injection hpo
    rw [← h2]
    rfl

/-- C4 (amended): in the transformed response, humidity and pressure are
null when the corresponding hourly array is empty or missing; humidity is
otherwise the first sample of its hourly array; pressure is the first
sample rounded to 2 decimal places when that sample is a nonzero number,
and null when the first sample is falsy — in particular a first pressure
sample of 0 yields null, not a rounded 0. -/
theorem humidity_pressure_first_samples (target : Location)
    (af cwf hf : List (String × Json))
    (hcw : objGetD af "current_weather" (.obj []) = .obj cwf)
    (hhd : objGetD af "hourly" (.obj []) = .obj hf)
    (hhum : objGetD hf "relativehumidity_2m" .null = .null ∨
            ∃ hs, objGetD hf "relativehumidity_2m" .null = .arr hs)
    (hpress : objGetD hf "pressure_msl" .null = .null ∨
              ∃ ps, objGetD hf "pressure_msl" .null = .arr ps ∧
                (∀ x tl, ps = x :: tl → x.truthy = true → ∃ q, x = .num q)) :
    ∃ fields, transform target (.obj af) = .ok (.obj fields) ∧
      objFind fields "humidity" =
        some (match objGetD hf "relativehumidity_2m" .null with
              | .arr (x :: _) => x
              | _ => .null) ∧
      objFind fields "pressure" =
        some (match objGetD hf "pressure_msl" .null with
              | .arr (.num q :: _) =>
                  if q = 0 then Json.null
                  else .num ((roundHalfEven (q * 100) : ℚ) / 100)
              | _ => .null) := by
  obtain ⟨hum, hhumFS, hhumVal⟩ :
      ∃ hum, firstSample (.obj hf) "relativehumidity_2m" = .ok hum ∧
        hum = (match objGetD hf "relativehumidity_2m" .null with
               | .arr (x :: _) => x
               | _ => .null) := by
    rcases hhum with h | ⟨hs, h⟩
    · exact ⟨.null, firstSample_of_null hf _ h, by rw [h]⟩
    · cases hs with
      | nil => exact ⟨.null, firstSample_of_empty hf _ h, by rw [h]⟩
      | cons x tl => exact ⟨x, firstSample_of_cons hf _ x tl h, by rw [h]⟩
  obtain ⟨press, pressOut, hpressFS, hpo, hpoVal⟩ :
      ∃ press pressOut, firstSample (.obj hf) "pressure_msl" = .ok press ∧
        (if press.truthy then pyRound2 press else pure Json.null) = .ok pressOut ∧
        pressOut = (match objGetD hf "pressure_msl" .null with
                    | .arr (.num q :: _) =>
                        if q = 0 then Json.null
                        else .num ((roundHalfEven (q * 100) : ℚ) / 100)
                    | _ => .null) := by
    rcases hpress with h | ⟨ps, h, hnum⟩
    · exact ⟨.null, .null, firstSample_of_null hf _ h, rfl, by rw [h]⟩
    · cases ps with
      | nil => exact ⟨.null, .null, firstSample_of_empty hf _ h, rfl, by rw [h]⟩
      | cons x tl =>
        by_cases ht : x.truthy = true
        · obtain ⟨q, hq⟩ := hnum x tl rfl ht
          subst hq
          have hq0 : q ≠ 0 := by simpa [Json.truthy] using ht
          refine ⟨.num q, .num ((roundHalfEven (q * 100) : ℚ) / 100),
            firstSample_of_cons hf _ _ tl h, ?_, ?_⟩
          · simp [Json.truthy, hq0, pyRound2]
          · rw [h]
            simp [hq0]
        · refine ⟨x, .null, firstSample_of_cons hf _ x tl h, ?_, ?_⟩
          · simp [ht]
            rfl
          · rw [h]
            rcases x with _ | b | q | s | xs | fs
            · rfl
            · rfl
            · have hq : q = 0 := by simpa [Json.truthy] using ht
              subst hq
              simp
            · rfl
            · rfl
            · rfl
  refine ⟨_, transform_fields target af cwf hf hum press pressOut hcw hhd hhumFS
    hpressFS hpo, ?_, ?_⟩
  · show some hum = _
    rw [hhumVal]
  · show some pressOut = _
    rw [hpoVal]

/-- Witness for C4 (amended): hourly humidity missing and pressure series
[2]; the transformed response has null humidity and pressure 2. -/
theorem humidity_pressure_first_samples_witness :
    ∃ fields, transform
        { name := "Eastern Sea", lat := 3.20, lon := 73.22,
          image := "static/eastern_sea.png", status := "RDA Activity Detected",
          status_color := "red" }
        (.obj [("current_weather", .obj []),
               ("hourly", .obj [("pressure_msl", .arr [.num 2])])])
      = .ok (.obj fields) ∧
      objFind fields "humidity" = some Json.null ∧
      objFind fields "pressure" = some (.num 2) := by
  have h := humidity_pressure_first_samples
    { name := "Eastern Sea", lat := 3.20, lon := 73.22,
      image := "static/eastern_sea.png", status := "RDA Activity Detected",
      status_color := "red" }
    [("current_weather", .obj []), ("hourly", .obj [("pressure_msl", .arr [.num 2])])]
    [] [("pressure_msl", .arr [.num 2])]
    rfl rfl (Or.inl rfl)
    (Or.inr ⟨[.num 2], rfl,
      fun x tl hx _ => by
        injection hx with h1 h2
        exact ⟨2, h1.symm⟩⟩)
  obtain ⟨fields, h1, h2, h3⟩ := h
  refine ⟨fields, h1, ?_, ?_⟩
  · rw [h2]
    simp [objGetD, objFind]
  · rw [h3]
    have hval : objGetD [("pressure_msl", Json.arr [Json.num 2])] "pressure_msl" Json.null
        = Json.arr [Json.num 2] := rfl
    rw [hval]
    norm_num [roundHalfEven]

end Pandora
